import Mathlib

/-!
Verification of the dd-agent HDFS check repository.

Part 1: the sample-store core. The `checks` module that implements the
`Check` class is exercised by `src/tests/test_common.py` but its source is
not part of this repository snapshot, so the store is modelled from the
specification's words (data model, component design and error taxonomy
sections), with timestamps and values as rationals.

Part 2: the HDFS DataNode/NameNode check glue, embedded from
`src/checks.d/hdfs_datanode.py` and `src/checks.d/hdfs_namenode.py`.
-/

set_option autoImplicit false

namespace SampleStore

/-- Modelled from the spec: each MetricName has exactly one MetricKind,
Gauge or Counter, fixed at first registration. -/
inductive MetricKind where
  | gauge
  | counter
  deriving DecidableEq, Repr

/-- Modelled from the spec: an Observation is a (timestamp, value) pair;
floats are modelled as rationals. -/
structure Observation where
  ts : ℚ
  value : ℚ
  deriving DecidableEq, Repr

/-- Modelled from the spec: the store's current state for a MetricName —
its kind, plus the retained raw observations (oldest first): at most one
for a Gauge, at most the two most recent for a Counter. -/
structure SampleRecord where
  kind : MetricKind
  obs : List Observation
  deriving DecidableEq, Repr

/-- Modelled from the spec: the Store is a mapping from MetricName to
SampleRecord, here an association list keyed by the metric name. -/
abbrev Store : Type := List (String × SampleRecord)

/-- The empty store (created empty at process/check start). -/
def Store.empty : Store := []

/-- First record bound to a name in the store, if any. -/
def Store.lookup (s : Store) (n : String) : Option SampleRecord :=
  match s with
  | [] => none
  | (k, r) :: rest => if k = n then some r else Store.lookup rest n

/-- Replace the record bound to a name, or append a fresh binding. -/
def Store.set (s : Store) (n : String) (r : SampleRecord) : Store :=
  match s with
  | [] => [(n, r)]
  | (k, r0) :: rest =>
      if k = n then (k, r) :: rest else (k, r0) :: Store.set rest n r

/-- Modelled from the spec: the closed error-kind set of the Store's
error taxonomy. -/
inductive StoreError where
  | unknownMetric
  | insufficientHistory
  | nonMonotonicTime
  | kindConflict
  deriving DecidableEq, Repr

/-- Modelled from the spec: `registerGauge` idempotently declares a name
as Gauge; fails with KindConflict if the name is already a Counter. -/
def registerGauge (s : Store) (n : String) : Except StoreError Store :=
  match s.lookup n with
  | none => .ok (s.set n ⟨.gauge, []⟩)
  | some r => if r.kind = .gauge then .ok s else .error .kindConflict

/-- Modelled from the spec: `registerCounter` idempotently declares a name
as Counter; fails with KindConflict if the name is already a Gauge. -/
def registerCounter (s : Store) (n : String) : Except StoreError Store :=
  match s.lookup n with
  | none => .ok (s.set n ⟨.counter, []⟩)
  | some r => if r.kind = .counter then .ok s else .error .kindConflict

/-- Modelled from the spec: `is_gauge` holds of a registered Gauge name. -/
def is_gauge (s : Store) (n : String) : Bool :=
  match s.lookup n with
  | some r => r.kind = .gauge
  | none => false

/-- Modelled from the spec: `is_counter` holds of a registered Counter
name. -/
def is_counter (s : Store) (n : String) : Bool :=
  match s.lookup n with
  | some r => r.kind = .counter
  | none => false

/-- Modelled from the spec: installing a new observation. A Gauge keeps
only the single most recent observation; a Counter shifts current to
previous and installs the new observation as current, retaining only the
two most recent. -/
def pushObs (kind : MetricKind) (obs : List Observation) (o : Observation) :
    List Observation :=
  match kind with
  | .gauge => [o]
  | .counter =>
      match obs with
      | [] => [o]
      | [prev] => [prev, o]
      | _ :: cur :: _ => [cur, o]

/-- Modelled from the spec: `saveSample(name, value, timestamp)` records
an Observation for the name; an unregistered name is implicitly
registered as Gauge. -/
def saveSample (s : Store) (n : String) (v : ℚ) (t : ℚ) : Store :=
  match s.lookup n with
  | none => s.set n ⟨.gauge, [⟨t, v⟩]⟩
  | some r => s.set n ⟨r.kind, pushObs r.kind r.obs ⟨t, v⟩⟩

/-- Modelled from the spec: `getSampleWithTimestamp` returns the pair of
the most recent observation's timestamp and the reportable value: the
last written value for a Gauge, the rate
(currentValue − previousValue) / (currentTimestamp − previousTimestamp)
for a Counter. It fails with UnknownMetric on a name absent from the
store, with InsufficientHistory before enough observations exist, and
with NonMonotonicTime when the Counter's two retained observations share
one timestamp. -/
def getSampleWithTimestamp (s : Store) (n : String) :
    Except StoreError (ℚ × ℚ) :=
  match s.lookup n with
  | none => .error .unknownMetric
  | some r =>
      match r.kind, r.obs with
      | .gauge, o :: _ => .ok (o.ts, o.value)
      | .gauge, [] => .error .insufficientHistory
      | .counter, [prev, cur] =>
          if cur.ts = prev.ts then .error .nonMonotonicTime
          else .ok (cur.ts, (cur.value - prev.value) / (cur.ts - prev.ts))
      | .counter, _ => .error .insufficientHistory

/-- Modelled from the spec: `getSample` is `getSampleWithTimestamp`
without the timestamp component. -/
def getSample (s : Store) (n : String) : Except StoreError ℚ :=
  match getSampleWithTimestamp s n with
  | .ok p => .ok p.2
  | .error e => .error e

/-- Modelled from the spec: `getSamplesWithTimestamps` maps every
registered name to its (timestamp, reportedValue) pair, silently
skipping entries that are not yet reportable. -/
def getSamplesWithTimestamps (s : Store) : List (String × (ℚ × ℚ)) :=
  s.filterMap fun e =>
    match getSampleWithTimestamp s e.1 with
    | .ok p => some (e.1, p)
    | .error _ => none

/-- Modelled from the spec: `getSamples` maps every registered name to
its reportable value, with the same skip-on-not-ready policy. -/
def getSamples (s : Store) : List (String × ℚ) :=
  s.filterMap fun e =>
    match getSample s e.1 with
    | .ok v => some (e.1, v)
    | .error _ => none

/-- Method-call view of the store's interface: each operation of the
public contract, run against a state. -/
inductive Op where
  | regGauge (n : String)
  | regCounter (n : String)
  | save (n : String) (v : ℚ) (t : ℚ)
  | getOne (n : String)
  | getOneWT (n : String)
  | getAll
  | getAllWT
  deriving DecidableEq, Repr

/-- Possible results of one operation. -/
inductive OpResult where
  | unit
  | fail (e : StoreError)
  | value (v : ℚ)
  | pair (p : ℚ × ℚ)
  | bulk (m : List (String × ℚ))
  | bulkWT (m : List (String × (ℚ × ℚ)))
  deriving DecidableEq, Repr

/-- Modelled from the spec: running one method call against a state,
returning its result together with the state after the call. Only
`saveSample` and the registrations produce a changed state; the reads
never mutate. -/
def runOp (s : Store) (op : Op) : OpResult × Store :=
  match op with
  | .regGauge n =>
      match registerGauge s n with
      | .ok s' => (.unit, s')
      | .error e => (.fail e, s)
  | .regCounter n =>
      match registerCounter s n with
      | .ok s' => (.unit, s')
      | .error e => (.fail e, s)
  | .save n v t => (.unit, saveSample s n v t)
  | .getOne n =>
      match getSample s n with
      | .ok v => (.value v, s)
      | .error e => (.fail e, s)
  | .getOneWT n =>
      match getSampleWithTimestamp s n with
      | .ok p => (.pair p, s)
      | .error e => (.fail e, s)
  | .getAll => (.bulk (getSamples s), s)
  | .getAllWT => (.bulkWT (getSamplesWithTimestamps s), s)

end SampleStore

namespace HdfsChecks

open SampleStore (Store)

/-- Service-check statuses used by the checks (`AgentCheck.OK`,
`AgentCheck.CRITICAL`). -/
inductive ServiceStatus where
  | OK
  | CRITICAL
  deriving DecidableEq, Repr

/-- A JMX bean from the decoded JSON payload: its `name` attribute and
its numeric attributes. -/
structure JmxBean where
  name : Option String
  attrs : List (String × ℚ)
  deriving DecidableEq, Repr

/-- The decoded JSON response: `response.get('beans', [])`. -/
structure JmxResponse where
  beans : List JmxBean
  deriving DecidableEq, Repr

/-- Outcome of `requests.get` + `raise_for_status` + `response.json()`:
either a decoded payload or one of the exceptions the source catches. -/
inductive FetchOutcome where
  | timeout
  | httpError
  | invalidURL
  | connectionError
  | jsonDecodeError
  | valueError
  | ok (resp : JmxResponse)
  deriving DecidableEq, Repr

/-- The exception re-raised by `_rest_request_to_json` on a failed
fetch. -/
inductive FetchErr where
  | timeout
  | httpError
  | invalidURL
  | connectionError
  | jsonDecodeError
  | valueError
  deriving DecidableEq, Repr

/-- Embeds `_rest_request_to_json` (identical in hdfs_datanode.py lines
100-161 and hdfs_namenode.py lines 120-181): on success the payload is
returned and one OK service check is emitted; every caught exception
emits one CRITICAL service check and is re-raised. The method never
touches the sample store, which is threaded through unchanged. -/
def restRequestToJson (f : FetchOutcome) (st : Store) :
    Except FetchErr JmxResponse × List ServiceStatus × Store :=
  match f with
  | .ok resp => (.ok resp, [.OK], st)
  | .timeout => (.error .timeout, [.CRITICAL], st)
  | .httpError => (.error .httpError, [.CRITICAL], st)
  | .invalidURL => (.error .invalidURL, [.CRITICAL], st)
  | .connectionError => (.error .connectionError, [.CRITICAL], st)
  | .jsonDecodeError => (.error .jsonDecodeError, [.CRITICAL], st)
  | .valueError => (.error .valueError, [.CRITICAL], st)

/-- Exceptions raised by the check entry points. -/
inductive CheckErr where
  | missingJmxUri
  | unexpectedBeanName (n : Option String)
  | fetchFailed (e : FetchErr)
  deriving DecidableEq, Repr

/-- Observable side effects of one `check(instance)` call: HTTP fetch
attempts, service checks reported, and gauges emitted via
`AgentCheck.gauge`. -/
structure CheckEffects where
  httpAttempts : Nat
  serviceChecks : List ServiceStatus
  gauges : List (String × ℚ)
  deriving DecidableEq, Repr

/-- No side effects. -/
def CheckEffects.none : CheckEffects := ⟨0, [], []⟩

/-- `instance.get(key)` on the instance configuration dict. -/
def dictGet (l : List (String × String)) (k : String) : Option String :=
  match l with
  | [] => none
  | (k0, v) :: rest => if k0 = k then some v else dictGet rest k

/-- `bean.get(metric)` on the bean's numeric attributes. -/
def attrGet (l : List (String × ℚ)) (k : String) : Option ℚ :=
  match l with
  | [] => none
  | (k0, v) :: rest => if k0 = k then some v else attrGet rest k

/-- `HDFS_METRICS` of hdfs_datanode.py (all gauge-typed). -/
def datanodeMetricTable : List (String × String) :=
  [("Remaining", "hdfs_datanode.dfs_remaining"),
   ("Capacity", "hdfs_datanode.dfs_capacity"),
   ("DfsUsed", "hdfs_datanode.dfs_used"),
   ("CacheCapacity", "hdfs_datanode.cache_capacity"),
   ("CacheUsed", "hdfs_datanode.cache_used"),
   ("NumFailedVolumes", "hdfs_datanode.num_failed_volumes"),
   ("LastVolumeFailureDate", "hdfs_datanode.last_volume_failure_date"),
   ("EstimatedCapacityLostTotal", "hdfs_datanode.estimated_capacity_lost_total"),
   ("NumBlocksCached", "hdfs_datanode.num_blocks_cached"),
   ("NumBlocksFailedToCache", "hdfs_datanode.num_blocks_failed_to_cache"),
   ("NumBlocksFailedToUnCache", "hdfs_datanode.num_blocks_failed_to_uncache")]

/-- `HDFS_METRICS` of hdfs_namenode.py (all gauge-typed). -/
def namenodeMetricTable : List (String × String) :=
  [("CapacityTotal", "hdfs_namenode.capacity_total"),
   ("CapacityUsed", "hdfs_namenode.capacity_used"),
   ("CapacityRemaining", "hdfs_namenode.capacity_remaining"),
   ("TotalLoad", "hdfs_namenode.total_load"),
   ("FsLockQueueLength", "hdfs_namenode.fs_lock_queue_length"),
   ("BlocksTotal", "hdfs_namenode.blocks_total"),
   ("MaxObjects", "hdfs_namenode.max_objects"),
   ("FilesTotal", "hdfs_namenode.files_total"),
   ("PendingReplicationBlocks", "hdfs_namenode.pending_replication_blocks"),
   ("UnderReplicatedBlocks", "hdfs_namenode.under_replicated_blocks"),
   ("ScheduledReplicationBlocks", "hdfs_namenode.scheduled_replication_blocks"),
   ("PendingDeletionBlocks", "hdfs_namenode.pending_deletion_blocks"),
   ("NumLiveDataNodes", "hdfs_namenode.num_live_data_nodes"),
   ("NumDeadDataNodes", "hdfs_namenode.num_dead_data_nodes"),
   ("NumDecomLiveDataNodes", "hdfs_namenode.num_decom_live_data_nodes"),
   ("NumDecomDeadDataNodes", "hdfs_namenode.num_decom_dead_data_nodes"),
   ("VolumeFailuresTotal", "hdfs_namenode.volume_failures_total"),
   ("EstimatedCapacityLostTotal", "hdfs_namenode.estimated_capacity_lost_total"),
   ("NumDecommissioningDataNodes", "hdfs_namenode.num_decommissioning_data_nodes"),
   ("NumStaleDataNodes", "hdfs_namenode.num_stale_data_nodes"),
   ("NumStaleStorages", "hdfs_namenode.num_stale_storages")]

/-- Embeds `_hdfs_datanode_metrics` / `_hdfs_namenode_metrics`: one REST
request; on success, if the bean list is non-empty its first bean's name
must equal the expected bean name (else an exception is raised), and one
gauge is emitted for every table entry present in the bean. -/
def nodeMetrics (beanName : String) (table : List (String × String))
    (f : FetchOutcome) (st : Store) :
    Except CheckErr Unit × CheckEffects × Store :=
  match restRequestToJson f st with
  | (.error e, checks, st') => (.error (.fetchFailed e), ⟨1, checks, []⟩, st')
  | (.ok resp, checks, st') =>
      match resp.beans with
      | [] => (.ok (), ⟨1, checks, []⟩, st')
      | bean :: _ =>
          if bean.name = some beanName then
            (.ok (),
             ⟨1, checks,
              table.filterMap fun e =>
                match attrGet bean.attrs e.1 with
                | some v => some (e.2, v)
                | none => none⟩,
             st')
          else (.error (.unexpectedBeanName bean.name), ⟨1, checks, []⟩, st')

/-- Embeds `HDFSDataNode.check` (hdfs_datanode.py lines 57-63): a missing
`hdfs_datanode_jmx_uri` key raises before anything else happens. -/
def datanodeCheck (inst : List (String × String)) (f : FetchOutcome)
    (st : Store) : Except CheckErr Unit × CheckEffects × Store :=
  match dictGet inst "hdfs_datanode_jmx_uri" with
  | none => (.error .missingJmxUri, CheckEffects.none, st)
  | some _ =>
      nodeMetrics "Hadoop:service=DataNode,name=FSDatasetState"
        datanodeMetricTable f st

/-- Embeds `HDFSNameNode.check` (hdfs_namenode.py lines 77-83): a missing
`hdfs_namenode_jmx_uri` key raises before anything else happens. -/
def namenodeCheck (inst : List (String × String)) (f : FetchOutcome)
    (st : Store) : Except CheckErr Unit × CheckEffects × Store :=
  match dictGet inst "hdfs_namenode_jmx_uri" with
  | none => (.error .missingJmxUri, CheckEffects.none, st)
  | some _ =>
      nodeMetrics "Hadoop:service=NameNode,name=FSNamesystemState"
        namenodeMetricTable f st

end HdfsChecks

namespace SampleStore

/-- Setting a binding makes it the one found for that name. -/
theorem Store.lookup_set_self (s : Store) (n : String) (r : SampleRecord) :
    (s.set n r).lookup n = some r := by
  induction s with
  | nil => simp [Store.set, Store.lookup]
  | cons e rest ih =>
      obtain ⟨k, r0⟩ := e
      by_cases h : k = n <;> simp [Store.set, Store.lookup, h, ih]

/-- A successful lookup returns an actual entry of the store. -/
theorem Store.lookup_mem {s : Store} {n : String} {r : SampleRecord}
    (h : s.lookup n = some r) : (n, r) ∈ s := by
  induction s with
  | nil => simp [Store.lookup] at h
  | cons e rest ih =>
      obtain ⟨k, r0⟩ := e
      by_cases hk : k = n
      · subst hk
        simp [Store.lookup] at h
        subst h
        exact List.mem_cons_self _ _
      · simp [Store.lookup, hk] at h
        exact List.mem_cons_of_mem _ (ih h)

/-- After a `saveSample` on a Gauge (or unregistered) name, the store
binds that name to a Gauge record holding exactly the new observation. -/
theorem saveSample_gauge_lookup (s : Store) (n : String) (v t : ℚ)
    (h : is_gauge s n = true ∨ s.lookup n = none) :
    (saveSample s n v t).lookup n = some ⟨.gauge, [⟨t, v⟩]⟩ := by
  rcases h with h | h
  · unfold is_gauge at h
    cases hl : s.lookup n with
    | none => rw [hl] at h; simp at h
    | some r =>
        rw [hl] at h
        simp only [decide_eq_true_eq] at h
        simp only [saveSample, hl, h]
        simp [pushObs, Store.lookup_set_self]
  · unfold saveSample
    rw [h]
    exact Store.lookup_set_self s n _

end SampleStore

namespace SampleStore

/-- A store holding one registered Counter name, as in the test setUp. -/
def counterStore0 : Store := [("test-counter", ⟨.counter, []⟩)]

/-- The counter after one observation (1.0, 1.0). -/
def counterOneStore : Store := saveSample counterStore0 "test-counter" 1 1

/-- The counter after observations (1.0, 1.0) and (2.0, 2.0). -/
def counterRateStore : Store := saveSample counterOneStore "test-counter" 2 2

/-- The counter after the observation (1.0, 1.0) recorded twice. -/
def counterDupStore : Store := saveSample counterOneStore "test-counter" 1 1

/-- A store holding one registered Gauge name, as in the test setUp. -/
def gaugeStore0 : Store := [("test-metric", ⟨.gauge, []⟩)]

/-- C1: a Counter whose previous observation is (t0, v0) and current
observation is (t1, v1), with t1 distinct from t0, reports exactly the
rate (v1 − v0) / (t1 − t0) from getSample — negative rates included,
with no clamping — and getSampleWithTimestamp reports (t1, rate). -/
theorem counter_rate_correct (s : Store) (n : String) (t0 v0 t1 v1 : ℚ)
    (h : s.lookup n = some ⟨.counter, [⟨t0, v0⟩, ⟨t1, v1⟩]⟩)
    (hne : t1 ≠ t0) :
    getSample s n = .ok ((v1 - v0) / (t1 - t0)) ∧
    getSampleWithTimestamp s n = .ok (t1, (v1 - v0) / (t1 - t0)) := by
  simp [getSample, getSampleWithTimestamp, h, hne]

/-- Witness for C1, on the test scenario: observations (1,1) then (2,2)
give rate 1, and after (3, −2) the rate is −4. -/
theorem counter_rate_correct_witness :
    (getSample counterRateStore "test-counter" = .ok ((2 - 1) / (2 - 1)) ∧
     getSampleWithTimestamp counterRateStore "test-counter" =
       .ok (2, (2 - 1) / (2 - 1))) ∧
    (getSample (saveSample counterRateStore "test-counter" (-2) 3)
       "test-counter" = .ok ((-2 - 2) / (3 - 2)) ∧
     getSampleWithTimestamp (saveSample counterRateStore "test-counter" (-2) 3)
       "test-counter" = .ok (3, (-2 - 2) / (3 - 2))) :=
  ⟨counter_rate_correct counterRateStore "test-counter" 1 1 2 2
     (by decide) (by decide),
   counter_rate_correct (saveSample counterRateStore "test-counter" (-2) 3)
     "test-counter" 2 2 3 (-2) (by decide) (by decide)⟩

/-- C2: a Counter whose two most recent observations share one timestamp
fails with NonMonotonicTime on getSample, and that error kind is
distinct from InsufficientHistory. -/
theorem counter_nonmonotonic_time (s : Store) (n : String) (t v0 v1 : ℚ)
    (h : s.lookup n = some ⟨.counter, [⟨t, v0⟩, ⟨t, v1⟩]⟩) :
    getSample s n = .error .nonMonotonicTime ∧
    StoreError.nonMonotonicTime ≠ StoreError.insufficientHistory := by
  simp [getSample, getSampleWithTimestamp, h]

/-- Witness for C2, on the test scenario: (1.0, 1.0) saved twice. -/
theorem counter_nonmonotonic_time_witness :
    getSample counterDupStore "test-counter" = .error .nonMonotonicTime ∧
    StoreError.nonMonotonicTime ≠ StoreError.insufficientHistory :=
  counter_nonmonotonic_time counterDupStore "test-counter" 1 1 1 (by decide)

/-- C3: getSample on a name absent from the store fails with
UnknownMetric; getSample on a Counter holding exactly one observation
fails with InsufficientHistory; the two error kinds are distinct. -/
theorem unknown_vs_insufficient (s : Store) (n m : String) (t v : ℚ)
    (hn : s.lookup n = none)
    (hm : s.lookup m = some ⟨.counter, [⟨t, v⟩]⟩) :
    getSample s n = .error .unknownMetric ∧
    getSample s m = .error .insufficientHistory ∧
    StoreError.unknownMetric ≠ StoreError.insufficientHistory := by
  simp [getSample, getSampleWithTimestamp, hn, hm]

/-- Witness for C3, on the test scenario: the name "unknown-metric" was
never seen, "test-counter" has one observation. -/
theorem unknown_vs_insufficient_witness :
    getSample counterOneStore "unknown-metric" = .error .unknownMetric ∧
    getSample counterOneStore "test-counter" = .error .insufficientHistory ∧
    StoreError.unknownMetric ≠ StoreError.insufficientHistory :=
  unknown_vs_insufficient counterOneStore "unknown-metric" "test-counter" 1 1
    (by decide) (by decide)

/-- C4: after one saveSample of value v on a Gauge (or unregistered)
name, getSample returns exactly v; the read leaves the state unchanged,
so a repeated read with no intervening write returns v again. -/
theorem gauge_read_after_save (s : Store) (n : String) (v t : ℚ)
    (h : is_gauge s n = true ∨ s.lookup n = none) :
    runOp (saveSample s n v t) (.getOne n) =
      (.value v, saveSample s n v t) ∧
    runOp (runOp (saveSample s n v t) (.getOne n)).2 (.getOne n) =
      (.value v, saveSample s n v t) := by
  have hl := saveSample_gauge_lookup s n v t h
  have hv : getSample (saveSample s n v t) n = .ok v := by
    simp [getSample, getSampleWithTimestamp, hl]
  constructor
  · simp [runOp, hv]
  · simp [runOp, hv]

/-- Witness for C4, on the test scenario: save 1.0 on the registered
gauge, read twice. -/
theorem gauge_read_after_save_witness :
    runOp (saveSample gaugeStore0 "test-metric" 1 0) (.getOne "test-metric") =
      (.value 1, saveSample gaugeStore0 "test-metric" 1 0) ∧
    runOp (runOp (saveSample gaugeStore0 "test-metric" 1 0)
        (.getOne "test-metric")).2 (.getOne "test-metric") =
      (.value 1, saveSample gaugeStore0 "test-metric" 1 0) :=
  gauge_read_after_save gaugeStore0 "test-metric" 1 0 (Or.inl (by decide))

/-- C5: a second saveSample on a Gauge name overwrites: getSample
returns the newest value, the store binds the name to a record holding
exactly one observation, and after a save with explicit timestamp t2 the
timestamped read returns (t2, v2). -/
theorem gauge_overwrite (s : Store) (n : String) (v1 t1 v2 t2 : ℚ)
    (h : is_gauge s n = true ∨ s.lookup n = none) :
    getSample (saveSample (saveSample s n v1 t1) n v2 t2) n = .ok v2 ∧
    (saveSample (saveSample s n v1 t1) n v2 t2).lookup n =
      some ⟨.gauge, [⟨t2, v2⟩]⟩ ∧
    getSampleWithTimestamp (saveSample (saveSample s n v1 t1) n v2 t2) n =
      .ok (t2, v2) := by
  have h1 := saveSample_gauge_lookup s n v1 t1 h
  have hg1 : is_gauge (saveSample s n v1 t1) n = true := by
    simp [is_gauge, h1]
  have h2 := saveSample_gauge_lookup (saveSample s n v1 t1) n v2 t2
    (Or.inl hg1)
  refine ⟨?_, h2, ?_⟩ <;> simp [getSample, getSampleWithTimestamp, h2]

/-- Witness for C5, on the test scenario: save 1.0 then 2.0 with
timestamp 5. -/
theorem gauge_overwrite_witness :
    getSample (saveSample (saveSample gaugeStore0 "test-metric" 1 0)
      "test-metric" 2 5) "test-metric" = .ok 2 ∧
    (saveSample (saveSample gaugeStore0 "test-metric" 1 0)
      "test-metric" 2 5).lookup "test-metric" =
      some ⟨.gauge, [⟨5, 2⟩]⟩ ∧
    getSampleWithTimestamp (saveSample (saveSample gaugeStore0
      "test-metric" 1 0) "test-metric" 2 5) "test-metric" = .ok (5, 2) :=
  gauge_overwrite gaugeStore0 "test-metric" 1 0 2 5 (Or.inl (by decide))

end SampleStore

namespace SampleStore

/-- The test_samples store: registered gauge and counter, gauge written
at (0.0, 1.0), counter written at (1.0, 1.0) then (2.0, 0.0). -/
def bulkStore : Store :=
  saveSample (saveSample (saveSample
    [("test-metric", ⟨.gauge, []⟩), ("test-counter", ⟨.counter, []⟩)]
    "test-metric" 1 0) "test-counter" 1 1) "test-counter" 0 2

/-- C6: the bulk reads are total (they return a plain mapping, never an
error); every pair they report agrees with the single-metric reads; every
registered metric whose single-metric read succeeds appears; a metric
whose single-metric read fails is omitted; and when no registered name
holds any observation the result is the empty mapping. -/
theorem bulk_reads_consistent (s : Store) :
    (∀ n tv, (n, tv) ∈ getSamplesWithTimestamps s →
        getSampleWithTimestamp s n = .ok tv) ∧
    (∀ n v, (n, v) ∈ getSamples s → getSample s n = .ok v) ∧
    (∀ n r tv, (n, r) ∈ s → getSampleWithTimestamp s n = .ok tv →
        (n, tv) ∈ getSamplesWithTimestamps s) ∧
    (∀ n r v, (n, r) ∈ s → getSample s n = .ok v →
        (n, v) ∈ getSamples s) ∧
    (∀ n e, getSampleWithTimestamp s n = .error e →
        ∀ tv, (n, tv) ∉ getSamplesWithTimestamps s) ∧
    ((∀ e ∈ s, (e : String × SampleRecord).2.obs = []) →
        getSamples s = [] ∧ getSamplesWithTimestamps s = []) := by
  have fwdWT : ∀ n tv, (n, tv) ∈ getSamplesWithTimestamps s →
      getSampleWithTimestamp s n = .ok tv := by
    intro n tv h
    obtain ⟨⟨n0, r0⟩, _, hf⟩ := List.mem_filterMap.mp h
    dsimp only at hf
    cases hg : getSampleWithTimestamp s n0 with
    | ok p =>
        rw [hg] at hf
        simp only [Option.some.injEq, Prod.mk.injEq] at hf
        obtain ⟨h1, h2⟩ := hf
        subst h1
        subst h2
        exact hg
    | error er => rw [hg] at hf; exact absurd hf (by simp)
  have fwdV : ∀ n v, (n, v) ∈ getSamples s → getSample s n = .ok v := by
    intro n v h
    obtain ⟨⟨n0, r0⟩, _, hf⟩ := List.mem_filterMap.mp h
    dsimp only at hf
    cases hg : getSample s n0 with
    | ok w =>
        rw [hg] at hf
        simp only [Option.some.injEq, Prod.mk.injEq] at hf
        obtain ⟨h1, h2⟩ := hf
        subst h1
        subst h2
        exact hg
    | error er => rw [hg] at hf; exact absurd hf (by simp)
  have notReady : ∀ n, (∃ e ∈ s, (e : String × SampleRecord).1 = n) →
      ∀ r', s.lookup n = some r' → (n, r') ∈ s := by
    intro n _ r' h'
    exact Store.lookup_mem h'
  refine ⟨fwdWT, fwdV, ?_, ?_, ?_, ?_⟩
  · intro n r tv hmem hok
    exact List.mem_filterMap.mpr ⟨(n, r), hmem, by dsimp only; rw [hok]⟩
  · intro n r v hmem hok
    exact List.mem_filterMap.mpr ⟨(n, r), hmem, by dsimp only; rw [hok]⟩
  · intro n e herr tv hmem
    have := fwdWT n tv hmem
    rw [herr] at this
    exact absurd this (by simp)
  · intro hall
    have hno : ∀ n : String, ∀ p : ℚ × ℚ,
        getSampleWithTimestamp s n ≠ .ok p := by
      intro n p hg
      unfold getSampleWithTimestamp at hg
      cases hl : s.lookup n with
      | none => rw [hl] at hg; exact absurd hg (by simp)
      | some r' =>
          rw [hl] at hg
          have ho : r'.obs = [] := hall _ (Store.lookup_mem hl)
          obtain ⟨kind, obs⟩ := r'
          simp only at ho
          subst ho
          cases kind <;> simp at hg
    have hnoV : ∀ n : String, ∀ v : ℚ, getSample s n ≠ .ok v := by
      intro n v hg
      unfold getSample at hg
      cases hg' : getSampleWithTimestamp s n with
      | ok p => exact hno n p hg'
      | error er => rw [hg'] at hg; exact absurd hg (by simp)
    have hwt : getSamplesWithTimestamps s = [] := by
      refine List.filterMap_eq_nil_iff.mpr ?_
      intro e he
      cases hg : getSampleWithTimestamp s e.1 with
      | error er => rfl
      | ok p => exact absurd hg (hno e.1 p)
    have hv : getSamples s = [] := by
      refine List.filterMap_eq_nil_iff.mpr ?_
      intro e he
      cases hg : getSample s e.1 with
      | error er => rfl
      | ok p => exact absurd hg (hnoV e.1 p)
    exact ⟨hv, hwt⟩

/-- Witness for C6, on the test_samples scenario: the bulk read contains
exactly the expected pairs, and the fresh registered-only store reads
back empty. -/
theorem bulk_reads_consistent_witness :
    ("test-metric", ((0 : ℚ), (1 : ℚ))) ∈ getSamplesWithTimestamps bulkStore ∧
    ("test-counter", ((2 : ℚ), ((0 : ℚ) - 1) / ((2 : ℚ) - 1))) ∈
      getSamplesWithTimestamps bulkStore ∧
    getSamples [("test-metric", ⟨.gauge, []⟩), ("test-counter", ⟨.counter, []⟩)] = [] :=
  ⟨(bulk_reads_consistent bulkStore).2.2.1 "test-metric" ⟨.gauge, [⟨0, 1⟩]⟩
     (0, 1) (by decide) rfl,
   (bulk_reads_consistent bulkStore).2.2.1 "test-counter"
     ⟨.counter, [⟨1, 1⟩, ⟨2, 0⟩]⟩ (2, ((0 : ℚ) - 1) / ((2 : ℚ) - 1))
     (by decide) rfl,
   ((bulk_reads_consistent _).2.2.2.2.2 (by decide)).1⟩

/-- C7: a registered name's kind is fixed: registering it again under
the other kind fails with KindConflict, re-registering under the same
kind is an idempotent no-op returning the store unchanged, and a
registered Gauge name satisfies is_gauge but not is_counter. -/
theorem kind_fixed_at_registration (s : Store) (n : String)
    (r : SampleRecord) (h : s.lookup n = some r) :
    (r.kind = .gauge →
        registerCounter s n = .error .kindConflict ∧
        registerGauge s n = .ok s ∧
        is_gauge s n = true ∧ is_counter s n = false) ∧
    (r.kind = .counter →
        registerGauge s n = .error .kindConflict ∧
        registerCounter s n = .ok s ∧
        is_counter s n = true ∧ is_gauge s n = false) := by
  constructor <;> intro hk <;>
    simp [registerGauge, registerCounter, is_gauge, is_counter, h, hk]

/-- Witness for C7, on the test setUp store: the registered gauge name
conflicts as a counter, re-registers as a gauge, and is a gauge but not
a counter. -/
theorem kind_fixed_at_registration_witness :
    registerCounter gaugeStore0 "test-metric" = .error .kindConflict ∧
    registerGauge gaugeStore0 "test-metric" = .ok gaugeStore0 ∧
    is_gauge gaugeStore0 "test-metric" = true ∧
    is_counter gaugeStore0 "test-metric" = false :=
  (kind_fixed_at_registration gaugeStore0 "test-metric" ⟨.gauge, []⟩
    (by decide)).1 rfl

/-- C8: the four read operations leave every store state unchanged,
whether they succeed or fail; in the method-call view only saveSample
and the registrations can produce a changed state. -/
theorem reads_do_not_mutate (s : Store) (n : String) :
    (runOp s (.getOne n)).2 = s ∧
    (runOp s (.getOneWT n)).2 = s ∧
    (runOp s .getAll).2 = s ∧
    (runOp s .getAllWT).2 = s ∧
    (∀ op : Op, (runOp s op).2 ≠ s →
        (∃ m v t, op = .save m v t) ∨ (∃ m, op = .regGauge m) ∨
        (∃ m, op = .regCounter m)) := by
  refine ⟨?_, ?_, rfl, rfl, ?_⟩
  · cases hg : getSample s n <;> simp [runOp, hg]
  · cases hg : getSampleWithTimestamp s n <;> simp [runOp, hg]
  · intro op hne
    cases op with
    | save m v t => exact Or.inl ⟨m, v, t, rfl⟩
    | regGauge m => exact Or.inr (Or.inl ⟨m, rfl⟩)
    | regCounter m => exact Or.inr (Or.inr ⟨m, rfl⟩)
    | getOne m =>
        exfalso
        apply hne
        cases hg : getSample s m <;> simp [runOp, hg]
    | getOneWT m =>
        exfalso
        apply hne
        cases hg : getSampleWithTimestamp s m <;> simp [runOp, hg]
    | getAll => exact absurd rfl hne
    | getAllWT => exact absurd rfl hne

/-- Witness for C8, on the test setUp store: a single-metric read leaves
the state unchanged. -/
theorem reads_do_not_mutate_witness :
    (runOp gaugeStore0 (.getOne "test-metric")).2 = gaugeStore0 ∧
    (runOp gaugeStore0 .getAllWT).2 = gaugeStore0 :=
  ⟨(reads_do_not_mutate gaugeStore0 "test-metric").1,
   (reads_do_not_mutate gaugeStore0 "test-metric").2.2.2.1⟩

end SampleStore

namespace HdfsChecks

open SampleStore (Store)

/-- C9: each call of `_rest_request_to_json` reports exactly one service
check; it is OK exactly when the HTTP request and the JSON decode both
succeeded, and CRITICAL exactly when they did not, in which case the
caught exception is re-raised; the sample store is left unchanged. -/
theorem rest_request_single_binary_status (f : FetchOutcome) (st : Store) :
    (restRequestToJson f st).2.1.length = 1 ∧
    ((restRequestToJson f st).2.1 = [.OK] ↔ ∃ r, f = .ok r) ∧
    ((restRequestToJson f st).2.1 = [.CRITICAL] ↔ ∀ r, f ≠ .ok r) ∧
    (∀ r, f = .ok r → (restRequestToJson f st).1 = .ok r) ∧
    ((∀ r, f ≠ .ok r) → ∃ e, (restRequestToJson f st).1 = .error e) ∧
    (restRequestToJson f st).2.2 = st := by
  cases f <;> simp [restRequestToJson]

/-- Witness for C9: a successful fetch of an empty payload reports OK,
and a timeout reports CRITICAL with the exception re-raised, both
leaving the store unchanged. -/
theorem rest_request_single_binary_status_witness :
    (restRequestToJson (.ok ⟨[]⟩) Store.empty).2.1 = [.OK] ∧
    (restRequestToJson .timeout Store.empty).2.1 = [.CRITICAL] ∧
    (∃ e, (restRequestToJson .timeout Store.empty).1 = .error e) ∧
    (restRequestToJson .timeout Store.empty).2.2 = Store.empty :=
  ⟨((rest_request_single_binary_status (.ok ⟨[]⟩) Store.empty).2.1).mpr
     ⟨⟨[]⟩, rfl⟩,
   ((rest_request_single_binary_status .timeout Store.empty).2.2.1).mpr
     (by intro r h; cases h),
   (rest_request_single_binary_status .timeout Store.empty).2.2.2.2.1
     (by intro r h; cases h),
   (rest_request_single_binary_status .timeout Store.empty).2.2.2.2.2⟩

/-- C10: whenever the instance configuration lacks the JMX URI key of
the check being run — 'hdfs_datanode_jmx_uri' for the DataNode check,
'hdfs_namenode_jmx_uri' for the NameNode check, each conditioned only on
its own key — that check's entry point fails with the configuration
exception and produces no HTTP attempt, no service check and no gauge
emission, leaving the store unchanged. -/
theorem check_missing_uri_raises_first (inst : List (String × String))
    (f : FetchOutcome) (st : Store) :
    (dictGet inst "hdfs_datanode_jmx_uri" = none →
        datanodeCheck inst f st =
          (.error .missingJmxUri, CheckEffects.none, st)) ∧
    (dictGet inst "hdfs_namenode_jmx_uri" = none →
        namenodeCheck inst f st =
          (.error .missingJmxUri, CheckEffects.none, st)) := by
  constructor
  · intro hd
    unfold datanodeCheck
    rw [hd]
  · intro hn
    unfold namenodeCheck
    rw [hn]

/-- Witness for C10, on wrong-key misconfigurations: a DataNode check on
an instance holding only the NameNode key, and a NameNode check on an
instance holding only the DataNode key. -/
theorem check_missing_uri_raises_first_witness :
    datanodeCheck [("hdfs_namenode_jmx_uri", "http://localhost:50070")]
      .timeout Store.empty =
      (.error .missingJmxUri, CheckEffects.none, Store.empty) ∧
    namenodeCheck [("hdfs_datanode_jmx_uri", "http://localhost:50075")]
      .timeout Store.empty =
      (.error .missingJmxUri, CheckEffects.none, Store.empty) :=
  ⟨(check_missing_uri_raises_first
      [("hdfs_namenode_jmx_uri", "http://localhost:50070")]
      .timeout Store.empty).1 (by decide),
   (check_missing_uri_raises_first
      [("hdfs_datanode_jmx_uri", "http://localhost:50075")]
      .timeout Store.empty).2 (by decide)⟩

end HdfsChecks
